import Mathlib

/-!
# Verification of peakpower (peakpower.py)

A shallow embedding of the peak-demand monitor: the scheduler's per-second
decision chain, the window-peak estimator, the monthly-peak floor, and the
buzzer thread's firing patterns, together with theorems settling the spec's
claims. Real arithmetic from the Python source is modelled over `ℚ`
(Python floats appear only as exact decimal literals such as 0.9 and 0.25,
all representable in `ℚ`); wall-clock fields are natural numbers, and
Python's `%` / `-` on possibly-negative values is modelled on `ℤ`, whose
`%` agrees with Python's for positive moduli.
-/

namespace Peakpower

/-- Wall-clock fields of `datetime.datetime.now()` used by the main loop. -/
structure Now where
  hour : ℕ
  minute : ℕ
  second : ℕ
deriving DecidableEq, Repr

/-- What one iteration of the main loop does before sleeping:
refresh the monthly peak, do nothing (an early `continue`), or take a
sample with the computed `seconds_passed`. -/
inductive Action where
  | refresh
  | nothing
  | sample (seconds_passed : ℕ)
deriving DecidableEq, Repr

/-- The decision chain of the main loop (peakpower.py lines 169–187),
in source order: refresh check, idle-hours check, settling-period check,
30-second-cadence check, and finally the sampling branch with
`seconds_passed = (minute % 15) * 60 + second`.  `now.second - 1` is
computed in `ℤ` as Python does. -/
def tickAction (now : Now) : Action :=
  if now.minute % 15 = 0 ∧ (now.second : ℤ) - 1 = 0 then .refresh
  else if 23 ≤ now.hour ∨ now.hour ≤ 6 then .nothing
  else if now.minute % 15 < 5 then .nothing
  else if ((now.second : ℤ) - 1) % 30 ≠ 0 then .nothing
  else .sample ((now.minute % 15) * 60 + now.second)

/-- `PeakBuzzer.Alarm` enumeration, with the source's numeric values. -/
inductive Alarm where
  | IDLE
  | TEST
  | LEVEL_1
  | LEVEL_2
  | LEVEL_3
deriving DecidableEq, Repr

/-- The `value` of each `Alarm` member, as in the Python `Enum`. -/
def Alarm.value : Alarm → ℕ
  | .IDLE => 0
  | .TEST => 99
  | .LEVEL_1 => 1
  | .LEVEL_2 => 2
  | .LEVEL_3 => 3

/-- The alarm-level decision chain (peakpower.py lines 210–217). -/
def decideAlarm (ratio : ℚ) : Alarm :=
  if ratio < 0.9 then .IDLE
  else if ratio < 1 then .LEVEL_1
  else if ratio < 1.1 then .LEVEL_2
  else .LEVEL_3

/-- Severity order used by the monotonicity claim:
`Idle < Level1 < Level2 < Level3` (`Test` never results from
`decideAlarm`, so its rank is immaterial; it is placed above). -/
def levelRank : Alarm → ℕ
  | .IDLE => 0
  | .LEVEL_1 => 1
  | .LEVEL_2 => 2
  | .LEVEL_3 => 3
  | .TEST => 4

/-- `total_seconds = 15 * 60` (length of a billing window in seconds). -/
def total_seconds : ℚ := 15 * 60

/-- `continuation_chance = 0.25 + (0.75 * (seconds_passed / total_seconds))`
(peakpower.py line 188). -/
def continuation_chance (seconds_passed : ℚ) : ℚ :=
  0.25 + (0.75 * (seconds_passed / total_seconds))

/-- `current_peak_estimate_linear = (current_peak / seconds_passed) * total_seconds`
(peakpower.py line 193). -/
def current_peak_estimate_linear (current_peak seconds_passed : ℚ) : ℚ :=
  (current_peak / seconds_passed) * total_seconds

/-- `current_peak_estimate_continuation
  = current_peak + (current_power * (total_seconds - seconds_passed) / (3600/4))`
(peakpower.py lines 194–195). -/
def current_peak_estimate_continuation
    (current_peak current_power seconds_passed : ℚ) : ℚ :=
  current_peak + (current_power * (total_seconds - seconds_passed) / (3600 / 4))

/-- The blend of the two estimates (peakpower.py lines 197–200), as a
function of the three locals it combines. -/
def current_peak_estimate
    (lin continuation chance : ℚ) : ℚ :=
  (lin + continuation + (continuation * chance)) / (2 + chance)

/-- `get_monthly_peak` after the query: `max(rate1, rate2, 2.5) * 1000`
(peakpower.py line 156), where `rate1`, `rate2` are the per-rate-band
month-to-date peak yields in kW. -/
def get_monthly_peak (rate1 rate2 : ℚ) : ℚ :=
  max (max rate1 rate2) 2.5 * 1000

/-- One buzzer pulse: on-duration and off-duration in seconds, as passed
to `time.sleep`. -/
structure Pulse where
  onSec : ℚ
  offSec : ℚ
deriving DecidableEq, Repr

/-- One pass of the `PeakBuzzer.run` loop body (peakpower.py lines 79–102)
as a function of the observed state: the pulses fired and the state the
body leaves behind. `IDLE` sleeps and leaves the state alone; `TEST`
fires 3 pulses of 0.1 s on / 0.1 s off; any other state fires
`state.value` pulses of 0.5 s on / 0.5 s off; both firing branches end
with `set_alarm(IDLE)`. -/
def runBody (state : Alarm) : List Pulse × Alarm :=
  if state = .IDLE then ([], state)
  else if state = .TEST then (List.replicate 3 ⟨0.1, 0.1⟩, .IDLE)
  else (List.replicate state.value ⟨0.5, 0.5⟩, .IDLE)

/-! ## Interleaving model of the two threads

The scheduler thread and the buzzer thread share exactly one mutable
value, `PeakBuzzer.state`. The buzzer thread is modelled with an explicit
program counter: `poll` (about to read the shared state at the top of the
`run` loop) and `firing p k` (inside a firing loop whose iteration count
was fixed when `range(...)` was evaluated, with `k` pulses left to fire).
A trace is a list of events, each either one buzzer step or a
`set_alarm` call from the scheduler thread. -/

/-- Buzzer-thread program counter. -/
inductive BuzzerPC where
  | poll
  | firing (p : Pulse) (remaining : ℕ)
deriving DecidableEq, Repr

/-- Combined state of the two threads: the shared `state` field and the
buzzer thread's position. -/
structure Sys where
  shared : Alarm
  pc : BuzzerPC
deriving DecidableEq, Repr

/-- An event of an interleaved execution: one step of the buzzer thread,
or `set_alarm l` performed by the scheduler thread. -/
inductive Ev where
  | buz
  | sched (l : Alarm)
deriving DecidableEq, Repr

/-- Whether an event is a buzzer-thread step. -/
def Ev.isBuz : Ev → Bool
  | .buz => true
  | .sched _ => false

/-- Pulse shape and count the buzzer snapshots when it starts a pattern
for a non-idle observed state: `TEST` → 3 × (0.1 s / 0.1 s), otherwise
`state.value` × (0.5 s / 0.5 s). -/
def patternOf (a : Alarm) : Pulse × ℕ :=
  if a = .TEST then (⟨0.1, 0.1⟩, 3) else (⟨0.5, 0.5⟩, a.value)

/-- Small-step semantics of the interleaved system. A `sched l` event is
`set_alarm(l)`: it overwrites the shared state. A `buz` event at `poll`
reads the shared state and either sleeps (on `IDLE`) or enters a firing
loop with the snapshotted pattern; at `firing p (k+1)` it fires one pulse;
at `firing p 0` it performs the unconditional `set_alarm(IDLE)` and
returns to the top of the loop. -/
def step (s : Sys) (e : Ev) : Sys × List Pulse :=
  match e with
  | .sched l => (⟨l, s.pc⟩, [])
  | .buz =>
    match s.pc with
    | .poll =>
      if s.shared = .IDLE then (s, [])
      else
        let pn := patternOf s.shared
        (⟨s.shared, .firing pn.1 pn.2⟩, [])
    | .firing p (k + 1) => (⟨s.shared, .firing p k⟩, [p])
    | .firing _ 0 => (⟨.IDLE, .poll⟩, [])

/-- Run a trace of events from a system state, collecting all pulses
fired along the way. -/
def exec (s : Sys) : List Ev → Sys × List Pulse
  | [] => (s, [])
  | e :: es =>
    let sp := step s e
    let rest := exec sp.1 es
    (rest.1, sp.2 ++ rest.2)

/-! ## Claims -/

/-- C1 counterexample: the claim says that during the idle hours the
scheduler does nothing, in particular never refreshes the monthly peak.
But the refresh check comes first in the source, so at 23:00:01 the tick
refreshes the monthly peak instead of doing nothing. -/
theorem refresh_fires_during_idle_hours :
    tickAction ⟨23, 0, 1⟩ = .refresh ∧ Action.refresh ≠ Action.nothing := by
  exact ⟨by decide, by decide⟩

/-- C1 (amended): on a tick whose hour is in [23, 24) or [0, 6], the
scheduler refreshes the monthly peak when minute-of-hour mod 15 = 0 and
second = 1 (the refresh rule is evaluated before the idle-hours rule),
and otherwise does nothing that tick. -/
theorem idle_hours_behavior (now : Now)
    (h : 23 ≤ now.hour ∨ now.hour ≤ 6) :
    (now.minute % 15 = 0 ∧ now.second = 1 → tickAction now = .refresh) ∧
    (¬(now.minute % 15 = 0 ∧ now.second = 1) → tickAction now = .nothing) := by
  constructor
  · rintro ⟨hm, hs⟩
    simp [tickAction, hm, hs]
  · intro hn
    have hcond : ¬(now.minute % 15 = 0 ∧ (now.second : ℤ) - 1 = 0) := by
      rintro ⟨a, b⟩
      exact hn ⟨a, by omega⟩
    unfold tickAction
    rw [if_neg hcond, if_pos h]

/-- C1 witness: at 23:00:01 both hypotheses hold and the tick refreshes. -/
theorem idle_hours_behavior_witness :
    tickAction ⟨23, 0, 1⟩ = .refresh :=
  (idle_hours_behavior ⟨23, 0, 1⟩ (Or.inl (by decide))).1 ⟨by decide, by decide⟩

/-- C2: for every blended estimate and monthly peak > 0, the alarm level
chosen from `ratio = est / peak` is `IDLE` on [0, 0.9), `LEVEL_1` on
[0.9, 1), `LEVEL_2` on [1, 1.1) and `LEVEL_3` on [1.1, ∞): each boundary
value falls in the higher-severity band (0.9 ↦ LEVEL_1, 1 ↦ LEVEL_2,
1.1 ↦ LEVEL_3). -/
theorem alarm_decision_bands (est peak : ℚ) (hp : 0 < peak) :
    (est / peak < 0.9 → decideAlarm (est / peak) = .IDLE) ∧
    (0.9 ≤ est / peak ∧ est / peak < 1 → decideAlarm (est / peak) = .LEVEL_1) ∧
    (1 ≤ est / peak ∧ est / peak < 1.1 → decideAlarm (est / peak) = .LEVEL_2) ∧
    (1.1 ≤ est / peak → decideAlarm (est / peak) = .LEVEL_3) := by
  refine ⟨fun h => ?_, fun h => ?_, fun h => ?_, fun h => ?_⟩
  · unfold decideAlarm
    rw [if_pos h]
  · unfold decideAlarm
    rw [if_neg (not_lt.mpr h.1), if_pos h.2]
  · unfold decideAlarm
    rw [if_neg (by push_neg; linarith [h.1]), if_neg (not_lt.mpr h.1), if_pos h.2]
  · unfold decideAlarm
    rw [if_neg (by push_neg; linarith), if_neg (by push_neg; linarith),
      if_neg (not_lt.mpr h)]

/-- C2 witness: with estimate 9 and peak 10 the ratio is the boundary
value 0.9 and the decision is `LEVEL_1`. -/
theorem alarm_decision_bands_witness :
    decideAlarm ((9 : ℚ) / 10) = .LEVEL_1 :=
  (alarm_decision_bands 9 10 (by norm_num)).2.1 ⟨by norm_num, by norm_num⟩

/-- C3: on `current_peak = 3000`, `current_power = 4000`,
`seconds_passed = 450`: the linear estimate is 6000, the remaining time
`total_seconds - 450` is 450, the continuation estimate is 5000, the
confidence is 0.625, and the blend is 14125 / 2.625. -/
theorem estimator_worked_example :
    current_peak_estimate_linear 3000 450 = 6000 ∧
    total_seconds - 450 = 450 ∧
    current_peak_estimate_continuation 3000 4000 450 = 5000 ∧
    continuation_chance 450 = 0.625 ∧
    current_peak_estimate 6000 5000 0.625 = 14125 / 2.625 := by
  refine ⟨?_, ?_, ?_, ?_, ?_⟩ <;>
    norm_num [current_peak_estimate_linear, current_peak_estimate_continuation,
      continuation_chance, current_peak_estimate, total_seconds]

/-- C4: whatever the two observed rate-band peaks are, the monthly peak
is at least 2500 W, and the example peaks 1.2 kW and 1.8 kW yield exactly
2500 W. -/
theorem monthly_peak_floor (rate1 rate2 : ℚ) :
    2500 ≤ get_monthly_peak rate1 rate2 ∧ get_monthly_peak 1.2 1.8 = 2500 := by
  constructor
  · unfold get_monthly_peak
    have h : (2.5 : ℚ) ≤ max (max rate1 rate2) 2.5 := le_max_right _ _
    linarith
  · norm_num [get_monthly_peak, max_def]

/-- C5: one pass of the buzzer loop on `TEST` fires exactly 3 pulses of
0.1 s on / 0.1 s off and leaves the state `IDLE`; on `LEVEL_N`
(N = 1, 2, 3) it fires exactly N pulses of 0.5 s on / 0.5 s off and
leaves the state `IDLE`. -/
theorem buzzer_patterns :
    runBody .TEST = (List.replicate 3 ⟨0.1, 0.1⟩, .IDLE) ∧
    runBody .LEVEL_1 = (List.replicate 1 ⟨0.5, 0.5⟩, .IDLE) ∧
    runBody .LEVEL_2 = (List.replicate 2 ⟨0.5, 0.5⟩, .IDLE) ∧
    runBody .LEVEL_3 = (List.replicate 3 ⟨0.5, 0.5⟩, .IDLE) :=
  ⟨rfl, rfl, rfl, rfl⟩

/-- Unfolding `step` on a `set_alarm` event. -/
theorem step_sched (s : Sys) (l : Alarm) : step s (.sched l) = (⟨l, s.pc⟩, []) :=
  rfl

/-- Unfolding `step` on a buzzer step mid-pattern. -/
theorem step_buz_firing_succ (a : Alarm) (p : Pulse) (k : ℕ) :
    step ⟨a, .firing p (k + 1)⟩ .buz = (⟨a, .firing p k⟩, [p]) :=
  rfl

/-- Unfolding `step` on the buzzer step that completes a pattern. -/
theorem step_buz_firing_zero (a : Alarm) (p : Pulse) :
    step ⟨a, .firing p 0⟩ .buz = (⟨.IDLE, .poll⟩, []) :=
  rfl

/-- Unfolding `exec` on the empty trace. -/
theorem exec_nil (s : Sys) : exec s [] = (s, []) :=
  rfl

/-- Unfolding `exec` on a non-empty trace. -/
theorem exec_cons (s : Sys) (e : Ev) (es : List Ev) :
    exec s (e :: es) =
      ((exec (step s e).1 es).1, (step s e).2 ++ (exec (step s e).1 es).2) :=
  rfl

/-- C6: once a firing pattern has begun — the buzzer thread is at
`firing p n` with the pulse count `n` already snapshotted — then for
EVERY interleaving: any trace `es` containing exactly `n` buzzer steps
and arbitrarily many `set_alarm` writes from the scheduler thread, in any
order, followed by the buzzer's completion step, fires exactly the `n`
snapshotted pulses and ends with the shared state reset to `IDLE` and the
buzzer back at the top of its loop. Every level requested by a `sched`
event inside `es` is silently discarded, never queued. -/
theorem pattern_runs_to_completion (a : Alarm) (p : Pulse) (n : ℕ)
    (es : List Ev) (hcount : es.countP Ev.isBuz = n) :
    exec ⟨a, .firing p n⟩ (es ++ [.buz]) =
      (⟨.IDLE, .poll⟩, List.replicate n p) := by
  induction es generalizing a n with
  | nil =>
    simp only [List.countP_nil] at hcount
    subst hcount
    rfl
  | cons e rest ih =>
    cases e with
    | sched l =>
      have hc : rest.countP Ev.isBuz = n := by
        simpa [List.countP_cons, Ev.isBuz] using hcount
      rw [List.cons_append, exec_cons, step_sched, ih l n hc]
      simp
    | buz =>
      have hc : rest.countP Ev.isBuz + 1 = n := by
        simpa [List.countP_cons, Ev.isBuz] using hcount
      obtain ⟨m, rfl⟩ : ∃ m, n = m + 1 := ⟨_, hc.symm⟩
      rw [List.cons_append, exec_cons, step_buz_firing_succ,
        ih a m (by omega)]
      simp [List.replicate_succ]

/-- C6 witness: a pattern of 2 pulses begun at state `LEVEL_1`, with
`set_alarm(LEVEL_3)` and `set_alarm(TEST)` interleaved mid-pattern, still
fires exactly 2 pulses and resets the shared state to `IDLE`. -/
theorem pattern_runs_to_completion_witness :
    exec ⟨.LEVEL_1, .firing ⟨0.5, 0.5⟩ 2⟩
        ([.sched .LEVEL_3, .buz, .sched .TEST, .buz] ++ [.buz]) =
      (⟨.IDLE, .poll⟩, List.replicate 2 ⟨0.5, 0.5⟩) :=
  pattern_runs_to_completion .LEVEL_1 ⟨0.5, 0.5⟩ 2
    [.sched .LEVEL_3, .buz, .sched .TEST, .buz] (by decide)

/-- C7: whenever a tick reaches the sampling branch, the computed
`seconds_passed` is at least 300, hence nonzero as a rational, so the
division in the linear estimate never divides by zero. -/
theorem sample_seconds_at_least_300 (now : Now) (s : ℕ)
    (h : tickAction now = .sample s) : 300 ≤ s ∧ (s : ℚ) ≠ 0 := by
  unfold tickAction at h
  split_ifs at h with h1 h2 h3 h4 <;> simp at h
  exact ⟨by omega, Nat.cast_ne_zero.mpr (by omega)⟩

/-- C7 witness: at 12:07:01 the tick samples with
`seconds_passed = 7 * 60 + 1 = 421 ≥ 300`. -/
theorem sample_seconds_at_least_300_witness :
    300 ≤ 421 ∧ ((421 : ℕ) : ℚ) ≠ 0 :=
  sample_seconds_at_least_300 ⟨12, 7, 1⟩ 421 (by decide)

/-- C8: for `0 < seconds_passed < 900` the confidence equals
`1/4 + 3/4 * (seconds_passed / 900)`, lies in [1/4, 1], and grows
monotonically with `seconds_passed`. -/
theorem confidence_bounds (s : ℚ) (h0 : 0 < s) (h900 : s < 900) :
    continuation_chance s = 1 / 4 + 3 / 4 * (s / 900) ∧
    1 / 4 ≤ continuation_chance s ∧ continuation_chance s ≤ 1 ∧
    ∀ t : ℚ, s ≤ t → continuation_chance s ≤ continuation_chance t := by
  have heq : continuation_chance s = 1 / 4 + 3 / 4 * (s / 900) := by
    norm_num [continuation_chance, total_seconds]
  refine ⟨heq, ?_, ?_, ?_⟩
  · rw [heq]
    linarith
  · rw [heq]
    linarith
  · intro t ht
    unfold continuation_chance total_seconds
    linarith

/-- C8 witness: at the halfway point 450 s the confidence is within
[1/4, 1]. -/
theorem confidence_bounds_witness :
    1 / 4 ≤ continuation_chance 450 ∧ continuation_chance 450 ≤ 1 :=
  ⟨(confidence_bounds 450 (by norm_num) (by norm_num)).2.1,
   (confidence_bounds 450 (by norm_num) (by norm_num)).2.2.1⟩

/-- C9: for any linear estimate, continuation estimate and confidence in
[1/4, 1], the blended estimate lies between the two estimates
inclusive. -/
theorem blended_between_estimates (lin continuation chance : ℚ)
    (h1 : 1 / 4 ≤ chance) (h2 : chance ≤ 1) :
    min lin continuation ≤ current_peak_estimate lin continuation chance ∧
    current_peak_estimate lin continuation chance ≤ max lin continuation := by
  have hc0 : (0 : ℚ) ≤ chance := by linarith
  have hpos : (0 : ℚ) < 2 + chance := by linarith
  unfold current_peak_estimate
  constructor
  · rw [le_div_iff₀ hpos]
    rcases le_total lin continuation with h | h
    · rw [min_eq_left h]
      nlinarith [mul_le_mul_of_nonneg_right h hc0]
    · rw [min_eq_right h]
      nlinarith [mul_le_mul_of_nonneg_right h hc0]
  · rw [div_le_iff₀ hpos]
    rcases le_total lin continuation with h | h
    · rw [max_eq_right h]
      nlinarith [mul_le_mul_of_nonneg_right h hc0]
    · rw [max_eq_left h]
      nlinarith [mul_le_mul_of_nonneg_right h hc0]

/-- C9 witness: with linear 6000, continuation 5000 and confidence 5/8,
the blend lies between 5000 and 6000. -/
theorem blended_between_estimates_witness :
    min (6000 : ℚ) 5000 ≤ current_peak_estimate 6000 5000 (5 / 8) ∧
    current_peak_estimate 6000 5000 (5 / 8) ≤ max (6000 : ℚ) 5000 :=
  blended_between_estimates 6000 5000 (5 / 8) (by norm_num) (by norm_num)

/-- C10: for a fixed monthly peak > 0, the alarm decision is monotone in
the blended estimate under the severity order
`Idle < Level1 < Level2 < Level3`. -/
theorem alarm_decision_monotone (peak e1 e2 : ℚ) (hp : 0 < peak)
    (h : e1 ≤ e2) :
    levelRank (decideAlarm (e1 / peak)) ≤ levelRank (decideAlarm (e2 / peak)) := by
  have hr : e1 / peak ≤ e2 / peak := by gcongr
  unfold decideAlarm
  split_ifs <;> simp only [levelRank] <;>
    first
      | omega
      | (exfalso; linarith)

/-- C10 witness: with peak 1000, estimates 500 ≤ 2000 give decisions in
severity order. -/
theorem alarm_decision_monotone_witness :
    levelRank (decideAlarm ((500 : ℚ) / 1000)) ≤
      levelRank (decideAlarm ((2000 : ℚ) / 1000)) :=
  alarm_decision_monotone 1000 500 2000 (by norm_num) (by norm_num)

end Peakpower
